import Mathlib

/-!
Verification development for the OpenSlide region-reading engine and pixel
kernels (files openslide.c, openslide-image.c, openslide-image-ssse3.c,
openslide-image-avx2.c, openslide-decode-jxr.c, openslide-image.h).

Memory is modelled byte-wise: a buffer is either a `List Nat` of byte values
or, for the SIMD kernels that may store far outside the nominal destination,
a total function `Nat → Nat` from byte addresses to byte values.  `size_t`
arithmetic is `Nat` arithmetic reduced modulo `2 ^ 64` exactly where the C
code can wrap.  `double` arithmetic on downsample factors is modelled over
`ℚ`; every concrete value appearing in a theorem below is exactly
representable in binary floating point, so the rational model agrees with
the C `double` computation at those points.
-/

namespace OpenSlide

/-- Width of `size_t` on the targeted 64-bit platforms. -/
def SIZE_T_MOD : Nat := 2 ^ 64

/-- The C expression `n - 1` at type `size_t`: subtraction wraps modulo
`2 ^ 64`, so `0 - 1` yields `2 ^ 64 - 1`. -/
def size_t_sub_one (n : Nat) : Nat := (n + (SIZE_T_MOD - 1)) % SIZE_T_MOD

/-- Write one byte value `v` at address `a` of memory `m`. -/
def upd (m : Nat → Nat) (a v : Nat) : Nat → Nat :=
  fun x => if x = a then v else m x

/-- Store the bytes `bs` at consecutive addresses starting at `a`
(one `memcpy`-style store of a small vector). -/
def storeList (m : Nat → Nat) (a : Nat) : List Nat → (Nat → Nat)
  | [] => m
  | b :: bs => storeList (upd m a b) (a + 1) bs

/-- The four bytes of a `uint32_t` as stored to memory little-endian. -/
def le32 (v : Nat) : List Nat :=
  [v % 256, v / 256 % 256, v / 65536 % 256, v / 16777216 % 256]

/-- Macro BGR24TOARGB32 from openslide-image.h:
`0xFF000000 | p[0] | (p[1] << 8) | (p[2] << 16)` for the three source
bytes at address `p`. -/
def BGR24TOARGB32 (src : Nat → Nat) (p : Nat) : Nat :=
  Nat.lor (Nat.lor (Nat.lor 0xFF000000 (src p % 256))
    (Nat.shiftLeft (src (p + 1) % 256) 8))
    (Nat.shiftLeft (src (p + 2) % 256) 16)

/-- A 16-byte unaligned load (`_mm_lddqu_si128`) at address `a`. -/
def load16 (src : Nat → Nat) (a : Nat) : List Nat :=
  [src a % 256, src (a + 1) % 256, src (a + 2) % 256, src (a + 3) % 256,
   src (a + 4) % 256, src (a + 5) % 256, src (a + 6) % 256, src (a + 7) % 256,
   src (a + 8) % 256, src (a + 9) % 256, src (a + 10) % 256, src (a + 11) % 256,
   src (a + 12) % 256, src (a + 13) % 256, src (a + 14) % 256, src (a + 15) % 256]

/-- A 32-byte unaligned load (`_mm256_lddqu_si256`) at address `a`. -/
def load32 (src : Nat → Nat) (a : Nat) : List Nat :=
  load16 src a ++ load16 src (a + 16)

/-- Semantics of `_mm_shuffle_epi8` on 16-byte lists: output byte `i` is `0`
when bit 7 of mask byte `i` is set, else input byte `mask[i] mod 16`. -/
def pshufb (xs mask : List Nat) : List Nat :=
  mask.map (fun mi => if 128 ≤ mi % 256 then 0 else xs.getD (mi % 16) 0)

/-- Semantics of `_mm256_shuffle_epi8`: `pshufb` independently on each
128-bit lane. -/
def pshufb256 (xs mask : List Nat) : List Nat :=
  pshufb (xs.take 16) (mask.take 16) ++ pshufb (xs.drop 16) (mask.drop 16)

/-- Bytewise OR of two vectors (`_mm_or_si128` / `_mm256_or_si256`). -/
def orBytes (a b : List Nat) : List Nat := List.zipWith Nat.lor a b

/-- Logical right shift of each 16-bit little-endian lane
(`_mm_srli_epi16` / `_mm256_srli_epi16`). -/
def srli_epi16 (n : Nat) : List Nat → List Nat
  | lo :: hi :: t =>
      (((lo % 256) + 256 * (hi % 256)) >>> n) % 256 ::
      ((((lo % 256) + 256 * (hi % 256)) >>> n) / 256 % 256) :: srli_epi16 n t
  | l => l

/-- Value of a byte reinterpreted as a signed 8-bit integer. -/
def sbyte (b : Nat) : Int :=
  if b % 256 < 128 then (b % 256 : Int) else (b % 256 : Int) - 256

/-- Semantics of `_mm_cmpgt_epi8 v zero`: per byte, `0xFF` when the signed
byte is greater than zero, else `0`. -/
def pcmpgtb_zero (xs : List Nat) : List Nat :=
  xs.map (fun b => if 0 < sbyte b then 255 else 0)

/-- Semantics of `_mm256_permute4x64_epi64 v 0x08`: 64-bit lanes are
rearranged to `(q0, q2, q0, q0)`. -/
def permute4x64_08 (xs : List Nat) : List Nat :=
  xs.take 8 ++ ((xs.drop 16).take 8) ++ xs.take 8 ++ xs.take 8

/-! ### BGR24 → ARGB32 kernels (openslide-image.c, openslide-image-ssse3.c) -/

/-- The loop of `bgr24_to_argb32_generic`: reads 3 source bytes at offset `i`
while `i < src_len`, storing one little-endian `uint32_t` at destination slot
`k` (byte address `4 * k`), then advances `i` by 3 and `k` by 1.  This same
loop shape is the scalar tail loop of the SIMD variants, which enter it with
nonzero `i` and `k`. -/
def bgr24_generic_loop (src : Nat → Nat) (src_len : Nat) (i k : Nat)
    (m : Nat → Nat) : Nat → Nat :=
  if h : i < src_len then
    bgr24_generic_loop src src_len (i + 3) (k + 1)
      (storeList m (4 * k) (le32 (BGR24TOARGB32 src i)))
  else m
termination_by src_len - i

/-- `bgr24_to_argb32_generic` from openslide-image.c. -/
def bgr24_to_argb32_generic (src : Nat → Nat) (src_len : Nat)
    (m : Nat → Nat) : Nat → Nat :=
  bgr24_generic_loop src src_len 0 0 m

/-- Shuffle control of `_openslide_bgr24_to_argb32_ssse3`
(`0, 1, 2, 0xFF, 3, 4, 5, 0xFF, 6, 7, 8, 0xFF, 9, 10, 11, 0xFF`). -/
def shuffle_bgr24_argb32 : List Nat :=
  [0, 1, 2, 255, 3, 4, 5, 255, 6, 7, 8, 255, 9, 10, 11, 255]

/-- The alpha mask ORed in by `_openslide_bgr24_to_argb32_ssse3`
(`0, 0, 0, 0xFF` repeated). -/
def alpha_mask_bgr24 : List Nat :=
  [0, 0, 0, 255, 0, 0, 0, 255, 0, 0, 0, 255, 0, 0, 0, 255]

/-- One vector iteration body of `_openslide_bgr24_to_argb32_ssse3`: load 16
bytes at `p`, shuffle BGR triples into ARGB positions, OR the opaque alpha. -/
def bgr24_ssse3_body (src : Nat → Nat) (p : Nat) : List Nat :=
  orBytes (pshufb (load16 src p) shuffle_bgr24_argb32) alpha_mask_bgr24

/-- `_openslide_bgr24_to_argb32_ssse3` from openslide-image-ssse3.c.
`mm_step = 12`; `mm_len = src_len / mm_step - 1` is computed at type
`size_t` and therefore wraps to `2 ^ 64 - 1` when `src_len < 12`.  The
vector loop stores 16 bytes at destination byte address `16 * n` for each
`n < mm_len`; the scalar tail then continues at source offset
`mm_len * 12` (again `size_t` arithmetic) and destination slot
`4 * mm_len`. -/
def bgr24_to_argb32_ssse3 (src : Nat → Nat) (src_len : Nat)
    (m : Nat → Nat) : Nat → Nat :=
  let mm_len := size_t_sub_one (src_len / 12)
  let m1 := (List.range mm_len).foldl
    (fun mem n => storeList mem (16 * n) (bgr24_ssse3_body src (12 * n))) m
  bgr24_generic_loop src src_len ((mm_len * 12) % SIZE_T_MOD) (4 * mm_len) m1

/-! ### Gray16 → Gray8 kernels -/

/-- Little-endian 16-bit sample at byte address `a`. -/
def sample16 (src : Nat → Nat) (a : Nat) : Nat :=
  src a % 256 + 256 * (src (a + 1) % 256)

/-- `gray16togray8` from openslide-image.c: shift the 16-bit sample at `p`
right by `ns` and saturate values above 255. -/
def gray16togray8 (src : Nat → Nat) (p : Nat) (ns : Nat) : Nat :=
  let v := sample16 src p >>> ns
  if 255 < v then 255 else v

/-- Shuffle control `hi8` of the SSE2/AVX2 Gray16→Gray8 kernels: collect the
high byte of each 16-bit lane into the low half, zero the rest. -/
def mask_hi8 : List Nat :=
  [1, 3, 5, 7, 9, 11, 13, 15, 255, 255, 255, 255, 255, 255, 255, 255]

/-- Shuffle control `lo8`: collect the low byte of each 16-bit lane. -/
def mask_lo8 : List Nat :=
  [0, 2, 4, 6, 8, 10, 12, 14, 255, 255, 255, 255, 255, 255, 255, 255]

/-- The 16 bytes stored by one vector iteration of
`_openslide_gray16_to_gray8_sse2` for the 8 samples at byte address `a`:
shift right by `ns`, take low bytes, saturate lanes whose shifted high byte
is non-zero to 255 via a signed compare and an OR.  The code advances `dst`
by only 8, so bytes 8..15 (all zero) are overwritten by the next store or by
the scalar tail. -/
def gray16_to_gray8_sse2_block (src : Nat → Nat) (a ns : Nat) : List Nat :=
  let gray16 := load16 src a
  let tmp2 := srli_epi16 ns gray16
  let gray8 := pshufb tmp2 mask_lo8
  let tmp1 := pshufb tmp2 mask_hi8
  let cmp := pcmpgtb_zero tmp1
  orBytes cmp gray8

/-- The 32 bytes stored by one vector iteration of
`_openslide_gray16_to_gray8_avx2` for the 16 samples at byte address `a`.
After the per-lane shuffles the two 8-byte results are compacted into the
low 16 bytes by `_mm256_permute4x64_epi64 _ 0x08`; `dst` advances by 16, so
only the first 16 bytes of the store persist. -/
def gray16_to_gray8_avx2_block (src : Nat → Nat) (a ns : Nat) : List Nat :=
  let g16 := load32 src a
  let sh := srli_epi16 ns g16
  let gray8 := pshufb256 sh (mask_lo8 ++ mask_lo8)
  let hi := pshufb256 sh (mask_hi8 ++ mask_hi8)
  let cmp := pcmpgtb_zero hi
  permute4x64_08 (orBytes cmp gray8)

/-! ### Byte-plane restore (CZI zstd1) -/

/-- The loop of `restore_czi_zstd1_generic`: for `i < half`, emit source byte
`i` (low plane) then source byte `half + i` (high plane). -/
def restoreLoop (src : List Nat) (half i : Nat) : List Nat :=
  if _h : i < half then
    src.getD i 0 :: src.getD (half + i) 0 :: restoreLoop src half (i + 1)
  else []
termination_by half - i

/-- `restore_czi_zstd1_generic` from openslide-image.c: interleave the first
half of the buffer (low bytes) with the second half (high bytes). -/
def restore_czi_zstd1_generic (src : List Nat) : List Nat :=
  restoreLoop src (src.length / 2) 0

/-- Modelled from the spec: the CZI zstd1 "split" packing that the restore
kernel undoes — the low byte of every little-endian 16-bit sample stored
contiguously, followed by every high byte.  `lowBytes` collects the bytes at
even offsets of the interleaved stream. -/
def lowBytes : List Nat → List Nat
  | a :: _ :: t => a :: lowBytes t
  | _ => []

/-- Modelled from the spec: the high-byte plane of the split packing —
the bytes at odd offsets of the interleaved stream. -/
def highBytes : List Nat → List Nat
  | _ :: b :: t => b :: highBytes t
  | _ => []

/-- Modelled from the spec: split an interleaved little-endian 16-bit stream
into the contiguous low-byte plane followed by the high-byte plane. -/
def splitPlanes (s : List Nat) : List Nat := lowBytes s ++ highBytes s

/-! ### JXR codec adapter (openslide-decode-jxr.c) -/

/-- Error codes of the external jxrlib codec (JXRGlue.h / JXRMeta.h).
Only two facts about them matter below: they are pairwise distinct and the
failure codes are negative; the concrete values follow the jxrlib enum
(`WMP_errSuccess = 0`, failures descending from `-1`). -/
def WMP_errFail : Int := -1

def WMP_errNotYetImplemented : Int := -2

def WMP_errAbstractMethod : Int := -3

def WMP_errOutOfMemory : Int := -4

def WMP_errFileIO : Int := -5

def WMP_errBufferOverflow : Int := -6

def WMP_errInvalidParameter : Int := -7

def WMP_errInvalidArgument : Int := -8

def WMP_errUnsupportedFormat : Int := -9

def WMP_errIncorrectCodecVersion : Int := -10

def WMP_errIndexNotFound : Int := -11

def WMP_errOutOfSequence : Int := -12

def WMP_errNotInitialized : Int := -13

def WMP_errMustBeMultipleOf16LinesUntilLastCall : Int := -14

def WMP_errPlanarAlphaBandedEncRequiresTempFile : Int := -15

def WMP_errAlphaModeCannotBeTranscoded : Int := -16

def WMP_errIncorrectCodecSubVersion : Int := -17

/-- The `msgs` table of openslide-decode-jxr.c, including its terminating
`{0, NULL}` sentinel (message `none`). -/
def msgsTable : List (Int × Option String) :=
  [(WMP_errFail, some "WMP_errFail"),
   (WMP_errNotYetImplemented, some "WMP_errNotYetImplemented"),
   (WMP_errAbstractMethod, some "WMP_errAbstractMethod"),
   (WMP_errOutOfMemory, some "WMP_errOutOfMemory"),
   ( WMP_errFileIO, some "WMP_errFileIO"),
   (WMP_errBufferOverflow, some "WMP_errBufferOverflow"),
   (WMP_errInvalidParameter, some "WMP_errInvalidParameter"),
   (WMP_errInvalidArgument, some "WMP_errInvalidArgument"),
   (WMP_errUnsupportedFormat, some "WMP_errUnsupportedFormat"),
   (WMP_errIncorrectCodecVersion, some "WMP_errIncorrectCodecVersion"),
   (WMP_errIndexNotFound, some "WMP_errIndexNotFound"),
   (WMP_errOutOfSequence, some "WMP_errOutOfSequence"),
   (WMP_errNotInitialized, some "WMP_errNotInitialized"),
   (WMP_errMustBeMultipleOf16LinesUntilLastCall,
     some "WMP_errMustBeMultipleOf16LinesUntilLastCall"),
   (WMP_errPlanarAlphaBandedEncRequiresTempFile,
     some "WMP_errPlanarAlphaBandedEncRequiresTempFile"),
   (WMP_errAlphaModeCannotBeTranscoded,
     some "WMP_errAlphaModeCannotBeTranscoded"),
   (WMP_errIncorrectCodecSubVersion,
     some "WMP_errIncorrectCodecSubVersion"),
   (0, none)]

/-- GLib `g_set_error` on a `GError **` slot: fills the slot when it is
empty; an already-set slot is never overwritten. -/
def g_set_error (err : Option String) (m : String) : Option String :=
  some (err.getD m)

/-- The loop `while ((p++)->msg) { if (p->id == jerr) { g_set_error(...);
break; } }` of `print_err`, with the list argument the table suffix `p`
points at when the loop condition is evaluated.  Note the post-increment:
the condition reads the entry `p` points at, but the body compares `jerr`
against the NEXT entry, so the table's first entry (`WMP_errFail`) is never
compared against `jerr`. -/
def print_err_walk (jerr : Int) :
    List (Int × Option String) → Option String → Option String
  | [], err => err
  | e :: rest, err =>
    if e.2.isSome then
      match rest with
      | [] => err
      | q :: _ =>
        if q.1 = jerr then
          g_set_error err ("JXR decode error: " ++ q.2.getD "")
        else print_err_walk jerr rest err
    else err

/-- `print_err` from openslide-decode-jxr.c: translate a negative jxrlib
status into a readable error message; non-negative statuses set nothing. -/
def print_err (jerr : Int) (err : Option String) : Option String :=
  if 0 ≤ jerr then err else print_err_walk jerr msgsTable err

/-! ### Level / pyramid model (openslide.c) -/

/-- One `struct _openslide_level`: width and height in pixels and the
downsample factor (a C `double`, modelled over `ℚ`). -/
structure CLevel where
  w : Int
  h : Int
  downsample : ℚ
  deriving DecidableEq

/-- The downsample-completion pass of `openslide_open`: `blw`/`blh` are the
level-0 dimensions; a zero level-0 downsample becomes `1.0`; for each later
level a zero downsample becomes
`((blh / h) + (blw / w)) / 2.0` (openslide.c lines 250-264). -/
def fillDownsamples (levels : List CLevel) : List CLevel :=
  match levels with
  | [] => []
  | l0 :: rest =>
    let blw := l0.w
    let blh := l0.h
    let l0' := if l0.downsample = 0 then { l0 with downsample := 1 } else l0
    l0' :: rest.map (fun l =>
      if l.downsample = 0 then
        { l with downsample :=
            (((blh : ℚ) / (l.h : ℚ)) + ((blw : ℚ) / (l.w : ℚ))) / 2 }
      else l)

/-- The downsample-monotonicity check of `openslide_open` (lines 266-275):
scan adjacent levels and fail as soon as a downsample decreases. -/
def checkDownsamples : List ℚ → Bool
  | a :: b :: t => if b < a then false else checkDownsamples (b :: t)
  | _ => true

/-- The downsample phase of `openslide_open`: complete the missing
downsamples, then return `none` (the C code returns `NULL`, so the caller
gets no handle) when the completed sequence is not non-decreasing. -/
def openDownsamplePhase (levels : List CLevel) : Option (List CLevel) :=
  let ls := fillDownsamples levels
  if checkDownsamples (ls.map (fun l => l.downsample)) then some ls else none

/-- Modelled from the spec: `g` is the geometric mean of `a` and `b`, i.e.
the non-negative number whose square is `a * b`.  Used only to compare the
spec's wording against what `fillDownsamples` computes. -/
def IsGeometricMean (g a b : ℚ) : Prop := 0 ≤ g ∧ g ^ 2 = a * b

/-- The scan loop of `openslide_get_best_level_for_downsample`
(lines 463-467): for `i` from 1, return `i - 1` at the first level whose
downsample exceeds the target; past the end return `level_count - 1`. -/
def bestLevelLoop (dss : List ℚ) (target : ℚ) (i : Nat) : Int :=
  if h : i < dss.length then
    if target < dss.getD i 0 then (i : Int) - 1
    else bestLevelLoop dss target (i + 1)
  else (dss.length : Int) - 1
termination_by dss.length - i

/-- `openslide_get_best_level_for_downsample` from openslide.c, with the
handle's sticky error and per-level downsamples passed explicitly. -/
def openslide_get_best_level_for_downsample (err : Option String)
    (dss : List ℚ) (target : ℚ) : Int :=
  if err.isSome then -1
  else if target < dss.getD 0 0 then 0
  else bestLevelLoop dss target 1

/-! ### Region reader (openslide.c)

The backend capability `paint_region` and the cairo surface are external
collaborators: painting is modelled by an oracle `PaintOps` giving, for each
argument tuple `(x, y, level, w, h)` passed to `paint_region`, whether the
paint succeeds and how it transforms the bytes of the destination buffer the
surface is backed by.  Cairo surface/context creation and
`_openslide_check_cairo_status` are modelled as succeeding; `g_try_malloc`
is modelled as succeeding. -/

/-- The slide-handle fields consulted by the region readers. -/
structure OSR where
  channel_count : Int
  level_count : Int
  level_count_all : Int
  downsamples : List ℚ
  error : Option String

/-- Modelled from the spec: `_openslide_propagate_error` (openslide-error.c,
not under src/) records a sticky error on the handle — set at most once,
first error wins, never overwritten. -/
def propagate_error (osr : OSR) (msg : String) : OSR :=
  { osr with error := some (osr.error.getD msg) }

/-- `level_in_range` from openslide.c. -/
def level_in_range (osr : OSR) (level : Int) : Bool :=
  if level < 0 then false
  else if level > osr.level_count - 1 then false
  else true

/-- `openslide_get_level_downsample` from openslide.c. -/
def openslide_get_level_downsample (osr : OSR) (level : Int) : ℚ :=
  if osr.error.isSome || !(level_in_range osr level) then -1
  else osr.downsamples.getD level.toNat 0

/-- `openslide_get_level_downsample_gray` from openslide.c: like the
non-gray accessor but bounded by `level_count_all`. -/
def openslide_get_level_downsample_gray (osr : OSR) (level : Int) : ℚ :=
  if osr.error.isSome then -1
  else if level < 0 ∨ level > osr.level_count_all - 1 then -1
  else osr.downsamples.getD level.toNat 0

/-- C conversion of a `double` to `int64_t`: truncation toward zero. -/
def cTrunc (q : ℚ) : Int := if q < 0 then -Int.floor (-q) else Int.floor q

/-- memset(buf, 0, n) on a byte buffer. -/
def memsetZero (b : List Nat) (n : Nat) : List Nat :=
  List.replicate (min n b.length) 0 ++ b.drop n

/-- CAIRO_STRIDE_FOR_WIDTH_BPP / cairo_format_stride_for_width with 4-byte
alignment: round the row byte count up to a multiple of 4. -/
def stride_for (bpp w : Int) : Int := (((bpp * w + 7) / 8 + 3) / 4) * 4

/-- The abstract backend paint capability: for each `(x, y, level, w, h)`
tuple passed to `paint_region`, whether it succeeds and how it transforms
the destination buffer backing the surface. -/
structure PaintOps where
  ok : Int → Int → Int → Int → Int → Bool
  eff : Int → Int → Int → Int → Int → List Nat → List Nat

/-- `read_region_area` from openslide.c: clip negative origin coordinates
against the level's downsample, then paint when the clipped size is
positive and the level is in range.  Returns the updated destination, the
success verdict, and whether `paint_region` was actually invoked. -/
def read_region_area (ops : PaintOps) (osr : OSR) (dest : Option (List Nat))
    (x y : Int) (level : Int) (w h : Int) :
    Option (List Nat) × Bool × Bool :=
  if level_in_range osr level then
    let ds := osr.downsamples.getD level.toNat 0
    let tx : Int := if x < 0 then cTrunc ((-x : ℚ) / ds) else 0
    let x1 : Int := if x < 0 then 0 else x
    let w1 : Int := if x < 0 then w - tx else w
    let ty : Int := if y < 0 then cTrunc ((-y : ℚ) / ds) else 0
    let y1 : Int := if y < 0 then 0 else y
    let h1 : Int := if y < 0 then h - ty else h
    if w1 > 0 ∧ h1 > 0 then
      if ops.ok x1 y1 level w1 h1 then
        (dest.map (ops.eff x1 y1 level w1 h1), true, true)
      else (dest, false, true)
    else (dest, true, false)
  else (dest, true, false)

/-- Result of a full-color region read: final handle state, final
destination contents, the destination contents observed when the backend's
paint was first invoked (`none` when it never was), and whether some
sub-tile failed. -/
structure ReadRegionResult where
  osr : OSR
  dest : Option (List Nat)
  destAtFirstPaint : Option (List Nat)
  failed : Bool

/-- The row-major sub-tile grid `(row, col)`, `row < R`, `col < C`. -/
def tileList (R C : Nat) : List (Nat × Nat) :=
  (List.range R).flatMap (fun r => (List.range C).map (fun c => (r, c)))

/-- One sub-tile of `openslide_read_region` (lines 584-595): compute the
tile's level-0 surface coordinates `sx`, `sy` (`int64_t sx = x + col * d *
ds` with `double` arithmetic truncated back to `int64_t`) and its clipped
size, then run `read_region_area`. -/
def color_tile_area (ops : PaintOps) (osr : OSR) (dest : Option (List Nat))
    (x y : Int) (level : Int) (w h : Int) (ds : ℚ) (row col : Nat) :
    Option (List Nat) × Bool × Bool :=
  read_region_area ops osr dest
    (cTrunc ((x : ℚ) + ((col : ℚ) * 4096) * ds))
    (cTrunc ((y : ℚ) + ((row : ℚ) * 4096) * ds))
    level
    (min (w - (col : Int) * 4096) 4096)
    (min (h - (row : Int) * 4096) 4096)

/-- The sub-tile loop of `openslide_read_region` (lines 580-604): paint each
4096-pixel tile; on the first failure, set the sticky error, re-zero the
whole destination (`memset(dest, 0, w * h * 4)`) and return. -/
def color_tile_loop (ops : PaintOps) (x y : Int) (level : Int) (w h : Int)
    (ds : ℚ) (clearLen : Nat) :
    List (Nat × Nat) → OSR → Option (List Nat) → Option (List Nat) →
    ReadRegionResult
  | [], osr, dest, fp => ⟨osr, dest, fp, false⟩
  | (row, col) :: ts, osr, dest, fp =>
    let r := color_tile_area ops osr dest x y level w h ds row col
    let fp' := if r.2.2 && fp.isNone then dest else fp
    if r.2.1 then color_tile_loop ops x y level w h ds clearLen ts osr r.1 fp'
    else
      ⟨propagate_error osr "error painting region",
        r.1.map (fun b => memsetZero b clearLen), fp', true⟩

/-- `openslide_read_region` from openslide.c: validate the request (negative
sizes, multi-channel handles), zero the destination, bail out on a sticky
error, then paint 4096-pixel sub-tiles row-major. -/
def openslide_read_region (ops : PaintOps) (osr : OSR)
    (dest : Option (List Nat)) (x y : Int) (level : Int) (w h : Int) :
    ReadRegionResult :=
  if w < 0 ∨ h < 0 then
    ⟨propagate_error osr "negative width or height not allowed",
      dest, none, false⟩
  else if osr.channel_count > 1 then
    ⟨propagate_error osr
        "openslide_read_region can only read single channel slide",
      dest, none, false⟩
  else
    let clearLen := (w * h * 4).toNat
    let dest1 := dest.map (fun b => memsetZero b clearLen)
    if osr.error.isSome then ⟨osr, dest1, none, false⟩
    else
      let ds := openslide_get_level_downsample osr level
      let R := ((h + 4096 - 1) / 4096).toNat
      let C := ((w + 4096 - 1) / 4096).toNat
      color_tile_loop ops x y level w h ds clearLen (tileList R C) osr dest1
        none

/-- `read_region_area_gray` from openslide.c: reject pixel sizes other than
1 or 2; set the sticky error and fail on a level beyond `level_count_all`;
otherwise clip negative coordinates and paint (default OVER operator).
Returns the updated handle, the updated working buffer, the verdict, and
whether `paint_region` was invoked. -/
def read_region_area_gray (ops : PaintOps) (osr : OSR)
    (buf : Option (List Nat)) (pixel_bytes : Int) (x y : Int) (level : Int)
    (w h : Int) : OSR × Option (List Nat) × Bool × Bool :=
  if pixel_bytes = 1 ∨ pixel_bytes = 2 then
    if level > osr.level_count_all - 1 then
      (propagate_error osr "invalid level", buf, false, false)
    else
      let ds := osr.downsamples.getD level.toNat 0
      let tx : Int := if x < 0 then cTrunc ((-x : ℚ) / ds) else 0
      let x1 : Int := if x < 0 then 0 else x
      let w1 : Int := if x < 0 then w - tx else w
      let ty : Int := if y < 0 then cTrunc ((-y : ℚ) / ds) else 0
      let y1 : Int := if y < 0 then 0 else y
      let h1 : Int := if y < 0 then h - ty else h
      if w1 > 0 ∧ h1 > 0 then
        if ops.ok x1 y1 level w1 h1 then
          (osr, buf.map (ops.eff x1 y1 level w1 h1), true, true)
        else (osr, buf, false, true)
      else (osr, buf, true, false)
  else (osr, buf, false, false)

/-- `_openslide_del_row_padding` from openslide-image.c: copy the
`w * pixel_bytes` payload bytes of each of the `h` stride-aligned rows. -/
def del_row_padding (src : List Nat) (pixel_bytes w h stride : Nat) :
    List Nat :=
  (List.range h).flatMap (fun r => (src.drop (r * stride)).take (w * pixel_bytes))

/-- Result of a gray region read; fields as in `ReadRegionResult`. -/
structure ReadRegionGrayResult where
  osr : OSR
  dest : Option (List Nat)
  destAtFirstPaint : Option (List Nat)
  failed : Bool

/-- One sub-tile of `openslide_read_region_gray` (lines 755-765): compute
the tile's surface coordinates and clipped size, then run
`read_region_area_gray`. -/
def gray_tile_area (ops : PaintOps) (osr : OSR) (wb : Option (List Nat))
    (pixel_bytes : Int) (x y : Int) (level : Int) (w h : Int) (ds : ℚ)
    (row col : Nat) : OSR × Option (List Nat) × Bool × Bool :=
  read_region_area_gray ops osr wb pixel_bytes
    (cTrunc ((x : ℚ) + ((col : ℚ) * 4096) * ds))
    (cTrunc ((y : ℚ) + ((row : ℚ) * 4096) * ds))
    level
    (min (w - (col : Int) * 4096) 4096)
    (min (h - (row : Int) * 4096) 4096)

/-- The sub-tile loop of `openslide_read_region_gray` (lines 753-774).
`padded` tells whether the working buffer is the stride-padded intermediate
(`buf_cr`) rather than the caller's destination `dest0`.  On a sub-tile
failure the code re-zeroes only the working buffer (`memset(buf, 0,
h * stride)`) and returns without running `_openslide_del_row_padding`, so
in the padded case the caller's destination is left untouched. -/
def gray_tile_loop (ops : PaintOps) (padded : Bool)
    (dest0 : Option (List Nat)) (pixel_bytes : Int) (x y : Int) (level : Int)
    (w h : Int) (ds : ℚ) (stride : Int) :
    List (Nat × Nat) → OSR → Option (List Nat) → Option (List Nat) →
    ReadRegionGrayResult
  | [], osr, wb, fp =>
    if padded then
      ⟨osr,
        if dest0.isSome then
          wb.map (fun b =>
            del_row_padding b pixel_bytes.toNat w.toNat h.toNat stride.toNat)
        else dest0,
        fp, false⟩
    else ⟨osr, wb, fp, false⟩
  | (row, col) :: ts, osr, wb, fp =>
    let r := gray_tile_area ops osr wb pixel_bytes x y level w h ds row col
    let fp' := if r.2.2.2 && fp.isNone then (if padded then dest0 else wb)
      else fp
    if r.2.2.1 then
      gray_tile_loop ops padded dest0 pixel_bytes x y level w h ds stride ts
        r.1 r.2.1 fp'
    else
      let wbz := r.2.1.map (fun b => memsetZero b (h * stride).toNat)
      ⟨propagate_error r.1 "error painting gray region",
        if padded then dest0 else wbz, fp', true⟩

/-- `openslide_read_region_gray` from openslide.c: validate the request,
choose the pixel layout, build a stride-padded intermediate buffer when the
cairo stride differs from the tight row size, zero the working buffer, bail
out on a sticky error, paint sub-tiles, and finally strip the padding into
the caller's destination. -/
def openslide_read_region_gray (ops : PaintOps) (osr : OSR)
    (dest : Option (List Nat)) (pixel_bytes : Int) (x y : Int) (level : Int)
    (w h : Int) : ReadRegionGrayResult :=
  if w < 0 ∨ h < 0 then
    ⟨propagate_error osr "negative width or height not allowed",
      dest, none, false⟩
  else if ¬(pixel_bytes = 1 ∨ pixel_bytes = 2) then
    ⟨propagate_error osr "pixel_bytes must either 1 or 2", dest, none, false⟩
  else
    let bpp : Int := if pixel_bytes = 1 then 8 else 16
    let stride := stride_for bpp w
    let len := (h * stride).toNat
    let wb0 : Option (List Nat) :=
      if stride = w * pixel_bytes then dest
      else some (List.replicate len 0)
    let wb1 := wb0.map (fun b => memsetZero b len)
    if osr.error.isSome then
      ⟨osr, if stride = w * pixel_bytes then wb1 else dest, none, false⟩
    else
      let ds := openslide_get_level_downsample_gray osr level
      let R := ((h + 4096 - 1) / 4096).toNat
      let C := ((w + 4096 - 1) / 4096).toNat
      gray_tile_loop ops (stride != w * pixel_bytes) dest pixel_bytes x y
        level w h ds stride (tileList R C) osr wb1 none

/-- A backend whose paints always succeed without touching the buffer. -/
def trivialOps : PaintOps := ⟨fun _ _ _ _ _ => true, fun _ _ _ _ _ b => b⟩

/-- A backend whose paints always fail (and leave the buffer alone). -/
def failOps : PaintOps := ⟨fun _ _ _ _ _ => false, fun _ _ _ _ _ b => b⟩

/-- A healthy single-channel handle with one level of downsample 1. -/
def osrOneLevel : OSR := ⟨1, 1, 1, [1], none⟩

/-! ## Theorems -/

/-! ### Shared list and arithmetic lemmas -/

theorem lowBytes_length : ∀ s : List Nat, (lowBytes s).length = s.length / 2
  | [] => by simp [lowBytes]
  | [_] => by simp [lowBytes]
  | _ :: _ :: t => by
    simp only [lowBytes, List.length_cons]
    rw [lowBytes_length t]
    omega

theorem highBytes_length : ∀ s : List Nat,
    (highBytes s).length = s.length / 2
  | [] => by simp [highBytes]
  | [_] => by simp [highBytes]
  | _ :: _ :: t => by
    simp only [highBytes, List.length_cons]
    rw [highBytes_length t]
    omega

theorem lowBytes_getD : ∀ (s : List Nat), s.length % 2 = 0 →
    ∀ i, (lowBytes s).getD i 0 = s.getD (2 * i) 0
  | [], _, i => by simp [lowBytes]
  | [_], h, _ => by simp at h
  | a :: b :: t, h, i => by
    have ht : t.length % 2 = 0 := by
      simp only [List.length_cons] at h
      omega
    cases i with
    | zero => simp [lowBytes]
    | succ j =>
      have h2 : 2 * (j + 1) = 2 * j + 1 + 1 := by ring
      simp only [lowBytes, List.getD_cons_succ, h2]
      exact lowBytes_getD t ht j

theorem highBytes_getD : ∀ (s : List Nat), s.length % 2 = 0 →
    ∀ i, (highBytes s).getD i 0 = s.getD (2 * i + 1) 0
  | [], _, i => by simp [highBytes]
  | [_], h, _ => by simp at h
  | a :: b :: t, h, i => by
    have ht : t.length % 2 = 0 := by
      simp only [List.length_cons] at h
      omega
    cases i with
    | zero => simp [highBytes]
    | succ j =>
      have h2 : 2 * (j + 1) + 1 = 2 * j + 1 + 1 + 1 := by ring
      simp only [highBytes, List.getD_cons_succ, h2]
      exact highBytes_getD t ht j

theorem restoreLoop_split (s : List Nat) (he : s.length % 2 = 0) :
    ∀ (n i : Nat), s.length / 2 - i = n →
      restoreLoop (splitPlanes s) (s.length / 2) i = s.drop (2 * i) := by
  have hlow := lowBytes_length s
  intro n
  induction n with
  | zero =>
    intro i h0
    rw [restoreLoop, dif_neg (by omega)]
    symm
    apply List.drop_eq_nil_of_le
    omega
  | succ n ih =>
    intro i h0
    have hi : i < s.length / 2 := by omega
    rw [restoreLoop, dif_pos hi, ih (i + 1) (by omega)]
    have hg1 : (splitPlanes s).getD i 0 = s.getD (2 * i) 0 := by
      rw [splitPlanes, List.getD_append _ _ _ _ (by omega)]
      exact lowBytes_getD s he i
    have hg2 : (splitPlanes s).getD (s.length / 2 + i) 0 =
        s.getD (2 * i + 1) 0 := by
      rw [splitPlanes, List.getD_append_right _ _ _ _ (by omega)]
      rw [show s.length / 2 + i - (lowBytes s).length = i by omega]
      exact highBytes_getD s he i
    have h1 : 2 * i < s.length := by omega
    have h2 : 2 * i + 1 < s.length := by omega
    rw [hg1, hg2, List.getD_eq_getElem s 0 h1, List.getD_eq_getElem s 0 h2]
    rw [List.drop_eq_getElem_cons h1, List.drop_eq_getElem_cons h2]
    rw [show 2 * i + 1 + 1 = 2 * (i + 1) by ring]

theorem lor_255_of_lt (x : Nat) (hx : x < 256) : Nat.lor 255 x = 255 := by
  apply Nat.eq_of_testBit_eq
  intro i
  show (255 ||| x).testBit i = _
  rw [Nat.testBit_or]
  rcases Nat.lt_or_ge i 8 with h | h
  · have h255 : Nat.testBit 255 i = true := by interval_cases i <;> decide
    simp [h255]
  · have h255 : (255 : Nat).testBit i = false := by
      apply Nat.testBit_lt_two_pow
      calc (255 : Nat) < 2 ^ 8 := by norm_num
        _ ≤ 2 ^ i := Nat.pow_le_pow_right (by norm_num) h
    have hxb : x.testBit i = false := by
      apply Nat.testBit_lt_two_pow
      calc x < 2 ^ 8 := by omega
        _ ≤ 2 ^ i := Nat.pow_le_pow_right (by norm_num) h
    simp [h255, hxb]

theorem sat_out_255 (X : Nat) (hb : X ≤ 32767) (hhi : 256 ≤ X) :
    Nat.lor (if 0 < sbyte (X / 256 % 256) then 255 else 0) (X % 256)
      = 255 := by
  rw [if_pos]
  · exact lor_255_of_lt _ (Nat.mod_lt _ (by norm_num))
  · rw [sbyte]
    rw [if_pos (by omega)]
    omega

theorem sat_lane_255 (lo hi ns : Nat) (hns : 1 ≤ ns)
    (hhi : 256 ≤ (lo % 256 + 256 * (hi % 256)) >>> ns) :
    Nat.lor
      (if 0 < sbyte (((lo % 256 + 256 * (hi % 256)) >>> ns) / 256 % 256)
        then 255 else 0)
      (((lo % 256 + 256 * (hi % 256)) >>> ns) % 256) = 255 := by
  apply sat_out_255 _ _ hhi
  rw [Nat.shiftRight_eq_div_pow]
  have h2 : 2 ^ 1 ≤ 2 ^ ns := Nat.pow_le_pow_right (by norm_num) hns
  calc (lo % 256 + 256 * (hi % 256)) / 2 ^ ns
      ≤ (lo % 256 + 256 * (hi % 256)) / 2 ^ 1 :=
        Nat.div_le_div_left h2 (by norm_num)
    _ ≤ 32767 := by omega

theorem storeList_lt (bs : List Nat) : ∀ (m : Nat → Nat) (a x : Nat),
    x < a → storeList m a bs x = m x := by
  induction bs with
  | nil => intro m a x _; rfl
  | cons b t ih =>
    intro m a x hx
    rw [storeList, ih _ _ _ (by omega)]
    simp [upd, Nat.ne_of_lt hx]

theorem foldl_store_zero (f : Nat → List Nat) :
    ∀ (l : List Nat) (m : Nat → Nat), (∀ n ∈ l, 0 < n) →
      (l.foldl (fun mem n => storeList mem (16 * n) (f n)) m) 0 = m 0 := by
  intro l
  induction l with
  | nil => intro m _; rfl
  | cons n t ih =>
    intro m hl
    rw [List.foldl_cons, ih _ (fun x hx => hl x (List.mem_cons_of_mem _ hx))]
    exact storeList_lt _ _ _ _
      (by have := hl n (List.mem_cons_self _ _); omega)

theorem checkDownsamples_iff (l : List ℚ) :
    checkDownsamples l = true ↔ List.Chain' (fun a b : ℚ => a ≤ b) l := by
  induction l with
  | nil => simp [checkDownsamples]
  | cons a t ih =>
    cases t with
    | nil => simp [checkDownsamples]
    | cons b t2 =>
      rw [List.chain'_cons, ← ih]
      simp only [checkDownsamples]
      by_cases h : b < a
      · simp [h, not_le.mpr h]
      · simp [h, not_lt.mp h]

theorem memsetZero_full (b : List Nat) (n : Nat) (h : b.length = n) :
    memsetZero b n = List.replicate n 0 := by
  subst h
  simp [memsetZero]

theorem propagate_error_isSome (osr : OSR) (m : String) :
    (propagate_error osr m).error.isSome = true := by
  simp [propagate_error]

theorem read_region_area_cases (ops : PaintOps) (osr : OSR)
    (dest : Option (List Nat)) (x y : Int) (level : Int) (w h : Int) :
    read_region_area ops osr dest x y level w h = (dest, true, false) ∨
    (∃ a b c d e, read_region_area ops osr dest x y level w h =
      (dest.map (ops.eff a b c d e), true, true)) ∨
    read_region_area ops osr dest x y level w h = (dest, false, true) := by
  simp only [read_region_area]
  repeat' split
  all_goals first
    | exact Or.inl rfl
    | exact Or.inr (Or.inr rfl)
    | exact Or.inr (Or.inl ⟨_, _, _, _, _, rfl⟩)

theorem color_tile_area_cases (ops : PaintOps) (osr : OSR)
    (dest : Option (List Nat)) (x y : Int) (level : Int) (w h : Int)
    (ds : ℚ) (row col : Nat) :
    color_tile_area ops osr dest x y level w h ds row col
        = (dest, true, false) ∨
    (∃ a b c d e, color_tile_area ops osr dest x y level w h ds row col =
      (dest.map (ops.eff a b c d e), true, true)) ∨
    color_tile_area ops osr dest x y level w h ds row col
        = (dest, false, true) := by
  unfold color_tile_area
  exact read_region_area_cases ops osr dest _ _ level _ _

set_option maxHeartbeats 1000000 in
theorem read_region_area_gray_cases (ops : PaintOps) (osr : OSR)
    (wb : Option (List Nat)) (pb : Int) (x y : Int) (level : Int)
    (w h : Int) :
    (∃ osr', read_region_area_gray ops osr wb pb x y level w h
        = (osr', wb, true, false)) ∨
    (∃ osr' a b c d e, read_region_area_gray ops osr wb pb x y level w h
        = (osr', wb.map (ops.eff a b c d e), true, true)) ∨
    (∃ osr', read_region_area_gray ops osr wb pb x y level w h
        = (osr', wb, false, true)) ∨
    (∃ osr', read_region_area_gray ops osr wb pb x y level w h
        = (osr', wb, false, false)) := by
  simp only [read_region_area_gray]
  repeat' split
  all_goals first
    | exact Or.inl ⟨_, rfl⟩
    | exact Or.inr (Or.inr (Or.inr ⟨_, rfl⟩))
    | exact Or.inr (Or.inr (Or.inl ⟨_, rfl⟩))
    | exact Or.inr (Or.inl ⟨_, _, _, _, _, _, rfl⟩)

theorem gray_tile_area_cases (ops : PaintOps) (osr : OSR)
    (wb : Option (List Nat)) (pb : Int) (x y : Int) (level : Int)
    (w h : Int) (ds : ℚ) (row col : Nat) :
    (∃ osr', gray_tile_area ops osr wb pb x y level w h ds row col
        = (osr', wb, true, false)) ∨
    (∃ osr' a b c d e, gray_tile_area ops osr wb pb x y level w h ds row col
        = (osr', wb.map (ops.eff a b c d e), true, true)) ∨
    (∃ osr', gray_tile_area ops osr wb pb x y level w h ds row col
        = (osr', wb, false, true)) ∨
    (∃ osr', gray_tile_area ops osr wb pb x y level w h ds row col
        = (osr', wb, false, false)) := by
  unfold gray_tile_area
  exact read_region_area_gray_cases ops osr wb pb _ _ level _ _

theorem color_tile_loop_fp_some (ops : PaintOps) (x y : Int) (level : Int)
    (w h : Int) (ds : ℚ) (clearLen : Nat) (v : List Nat) :
    ∀ (ts : List (Nat × Nat)) (osr : OSR) (dest : Option (List Nat)),
      (color_tile_loop ops x y level w h ds clearLen ts osr dest
        (some v)).destAtFirstPaint = some v := by
  intro ts
  induction ts with
  | nil => intro osr dest; rfl
  | cons t ts ih =>
    intro osr dest
    obtain ⟨row, col⟩ := t
    simp only [color_tile_loop, Option.isNone_some, Bool.and_false,
      Bool.false_eq_true, if_false]
    split
    · exact ih _ _
    · rfl

theorem color_tile_loop_fp_none (ops : PaintOps) (x y : Int) (level : Int)
    (w h : Int) (ds : ℚ) (clearLen : Nat) (b : List Nat) :
    ∀ (ts : List (Nat × Nat)) (osr : OSR),
      (color_tile_loop ops x y level w h ds clearLen ts osr (some b)
          none).destAtFirstPaint = none ∨
      (color_tile_loop ops x y level w h ds clearLen ts osr (some b)
          none).destAtFirstPaint = some b := by
  intro ts
  induction ts with
  | nil => intro osr; exact Or.inl rfl
  | cons t ts ih =>
    intro osr
    obtain ⟨row, col⟩ := t
    rcases color_tile_area_cases ops osr (some b) x y level w h ds row col
      with hA | ⟨a1, a2, a3, a4, a5, hA⟩ | hA
    · simp only [color_tile_loop, hA, Bool.false_and, Bool.false_eq_true,
        if_false, if_true]
      exact ih osr
    · simp only [color_tile_loop, hA, Option.isNone_none, Bool.and_true,
        Option.map_some', if_true]
      exact Or.inr (color_tile_loop_fp_some ops x y level w h ds clearLen b
        ts osr _)
    · refine Or.inr ?_
      simp only [color_tile_loop, hA, Option.isNone_none, Bool.and_true,
        Bool.false_eq_true, if_false, if_true]

theorem color_tile_loop_failed_dest (ops : PaintOps) (x y : Int)
    (level : Int) (w h : Int) (ds : ℚ) (clearLen : Nat)
    (heff : ∀ a b c d e (buf : List Nat),
      (ops.eff a b c d e buf).length = buf.length) :
    ∀ (ts : List (Nat × Nat)) (osr : OSR) (buf : List Nat)
      (fp : Option (List Nat)), buf.length = clearLen →
      (color_tile_loop ops x y level w h ds clearLen ts osr (some buf)
        fp).failed = true →
      (color_tile_loop ops x y level w h ds clearLen ts osr (some buf)
        fp).dest = some (List.replicate clearLen 0) := by
  intro ts
  induction ts with
  | nil =>
    intro osr buf fp _ hf
    simp only [color_tile_loop] at hf
    cases hf
  | cons t ts ih =>
    intro osr buf fp hlen hf
    obtain ⟨row, col⟩ := t
    rcases color_tile_area_cases ops osr (some buf) x y level w h ds row col
      with hA | ⟨a1, a2, a3, a4, a5, hA⟩ | hA
    · simp only [color_tile_loop, hA, if_true] at hf ⊢
      exact ih osr buf _ hlen hf
    · simp only [color_tile_loop, hA, Option.map_some', if_true] at hf ⊢
      exact ih osr _ _ (by rw [heff]; exact hlen) hf
    · simp only [color_tile_loop, hA, Bool.false_eq_true, if_false,
        Option.map_some']
      rw [memsetZero_full buf clearLen hlen]

theorem gray_tile_loop_padded_failed (ops : PaintOps)
    (dest0 : Option (List Nat)) (pb : Int) (x y : Int) (level : Int)
    (w h : Int) (ds : ℚ) (stride : Int) :
    ∀ (ts : List (Nat × Nat)) (osr : OSR) (wb fp : Option (List Nat)),
      (gray_tile_loop ops true dest0 pb x y level w h ds stride ts osr wb
        fp).failed = true →
      (gray_tile_loop ops true dest0 pb x y level w h ds stride ts osr wb
        fp).dest = dest0 := by
  intro ts
  induction ts with
  | nil =>
    intro osr wb fp hf
    simp [gray_tile_loop] at hf
  | cons t ts ih =>
    intro osr wb fp hf
    obtain ⟨row, col⟩ := t
    rcases gray_tile_area_cases ops osr wb pb x y level w h ds row col with
      ⟨osr', hA⟩ | ⟨osr', a1, a2, a3, a4, a5, hA⟩ | ⟨osr', hA⟩ | ⟨osr', hA⟩
    · simp only [gray_tile_loop, hA, if_true] at hf ⊢
      exact ih _ _ _ hf
    · simp only [gray_tile_loop, hA, if_true] at hf ⊢
      exact ih _ _ _ hf
    · simp [gray_tile_loop, hA]
    · simp [gray_tile_loop, hA]

theorem gray_tile_loop_padded_fp (ops : PaintOps)
    (dest0 : Option (List Nat)) (pb : Int) (x y : Int) (level : Int)
    (w h : Int) (ds : ℚ) (stride : Int) :
    ∀ (ts : List (Nat × Nat)) (osr : OSR) (wb fp : Option (List Nat)),
      (gray_tile_loop ops true dest0 pb x y level w h ds stride ts osr wb
        fp).destAtFirstPaint = fp ∨
      (gray_tile_loop ops true dest0 pb x y level w h ds stride ts osr wb
        fp).destAtFirstPaint = dest0 := by
  intro ts
  induction ts with
  | nil =>
    intro osr wb fp
    simp [gray_tile_loop]
  | cons t ts ih =>
    intro osr wb fp
    obtain ⟨row, col⟩ := t
    rcases gray_tile_area_cases ops osr wb pb x y level w h ds row col with
      ⟨osr', hA⟩ | ⟨osr', a1, a2, a3, a4, a5, hA⟩ | ⟨osr', hA⟩ | ⟨osr', hA⟩
    · simp only [gray_tile_loop, hA, Bool.false_and, Bool.false_eq_true,
        if_false, if_true]
      exact ih _ _ _
    · simp only [gray_tile_loop, hA, Bool.true_and, if_true]
      by_cases hfp : fp.isNone
      · simp only [hfp, if_true]
        rcases ih osr' (Option.map (ops.eff a1 a2 a3 a4 a5) wb) dest0
          with hr | hr <;> exact Or.inr hr
      · simp only [hfp, Bool.false_eq_true, if_false]
        exact ih _ _ _
    · simp only [gray_tile_loop, hA, Bool.true_and, Bool.false_eq_true,
        if_false]
      by_cases hfp : fp.isNone
      · simp [hfp]
      · simp [hfp]
    · simp only [gray_tile_loop, hA, Bool.false_and, Bool.false_eq_true,
        if_false]
      simp

theorem gray_tile_loop_unpadded_failed (ops : PaintOps)
    (dest0 : Option (List Nat)) (pb : Int) (x y : Int) (level : Int)
    (w h : Int) (ds : ℚ) (stride : Int)
    (heff : ∀ a b c d e (buf : List Nat),
      (ops.eff a b c d e buf).length = buf.length) :
    ∀ (ts : List (Nat × Nat)) (osr : OSR) (buf : List Nat)
      (fp : Option (List Nat)), buf.length = (h * stride).toNat →
      (gray_tile_loop ops false dest0 pb x y level w h ds stride ts osr
        (some buf) fp).failed = true →
      (gray_tile_loop ops false dest0 pb x y level w h ds stride ts osr
        (some buf) fp).dest
        = some (List.replicate (h * stride).toNat 0) := by
  intro ts
  induction ts with
  | nil =>
    intro osr buf fp _ hf
    simp [gray_tile_loop] at hf
  | cons t ts ih =>
    intro osr buf fp hlen hf
    obtain ⟨row, col⟩ := t
    rcases gray_tile_area_cases ops osr (some buf) pb x y level w h ds row
      col with
      ⟨osr', hA⟩ | ⟨osr', a1, a2, a3, a4, a5, hA⟩ | ⟨osr', hA⟩ | ⟨osr', hA⟩
    · simp only [gray_tile_loop, hA, if_true] at hf ⊢
      exact ih _ _ _ hlen hf
    · simp only [gray_tile_loop, hA, Option.map_some', if_true] at hf ⊢
      exact ih _ _ _ (by rw [heff]; exact hlen) hf
    · simp only [gray_tile_loop, hA, Bool.false_eq_true, if_false,
        Option.map_some']
      rw [memsetZero_full buf _ hlen]
    · simp only [gray_tile_loop, hA, Bool.false_eq_true, if_false,
        Option.map_some']
      rw [memsetZero_full buf _ hlen]

theorem gray_tile_loop_unpadded_fp_some (ops : PaintOps)
    (dest0 : Option (List Nat)) (pb : Int) (x y : Int) (level : Int)
    (w h : Int) (ds : ℚ) (stride : Int) (v : List Nat) :
    ∀ (ts : List (Nat × Nat)) (osr : OSR) (wb : Option (List Nat)),
      (gray_tile_loop ops false dest0 pb x y level w h ds stride ts osr wb
        (some v)).destAtFirstPaint = some v := by
  intro ts
  induction ts with
  | nil => intro osr wb; simp [gray_tile_loop]
  | cons t ts ih =>
    intro osr wb
    obtain ⟨row, col⟩ := t
    rcases gray_tile_area_cases ops osr wb pb x y level w h ds row col with
      ⟨osr', hA⟩ | ⟨osr', a1, a2, a3, a4, a5, hA⟩ | ⟨osr', hA⟩ | ⟨osr', hA⟩ <;>
      simp only [gray_tile_loop, hA, Option.isNone_some, Bool.and_false,
        Bool.false_eq_true, if_false, if_true]
    · exact ih _ _
    · exact ih _ _

theorem gray_tile_loop_unpadded_fp_none (ops : PaintOps)
    (dest0 : Option (List Nat)) (pb : Int) (x y : Int) (level : Int)
    (w h : Int) (ds : ℚ) (stride : Int) (b : List Nat) :
    ∀ (ts : List (Nat × Nat)) (osr : OSR),
      (gray_tile_loop ops false dest0 pb x y level w h ds stride ts osr
        (some b) none).destAtFirstPaint = none ∨
      (gray_tile_loop ops false dest0 pb x y level w h ds stride ts osr
        (some b) none).destAtFirstPaint = some b := by
  intro ts
  induction ts with
  | nil => intro osr; simp [gray_tile_loop]
  | cons t ts ih =>
    intro osr
    obtain ⟨row, col⟩ := t
    rcases gray_tile_area_cases ops osr (some b) pb x y level w h ds row col
      with ⟨osr', hA⟩ | ⟨osr', a1, a2, a3, a4, a5, hA⟩ | ⟨osr', hA⟩ |
        ⟨osr', hA⟩
    · simp only [gray_tile_loop, hA, Bool.false_and, Bool.false_eq_true,
        if_false, if_true]
      exact ih _
    · simp only [gray_tile_loop, hA, Option.isNone_none, Bool.and_true,
        Option.map_some', if_true, Bool.false_eq_true, if_false]
      exact Or.inr (gray_tile_loop_unpadded_fp_some ops dest0 pb x y level
        w h ds stride b ts osr' _)
    · refine Or.inr ?_
      simp only [gray_tile_loop, hA, Option.isNone_none, Bool.and_true,
        Bool.false_eq_true, if_false, if_true]
    · simp only [gray_tile_loop, hA, Bool.false_and, Bool.false_eq_true,
        if_false]
      simp

theorem gray_tile_area_1x1_fail (wb : Option (List Nat)) (ds : ℚ) :
    gray_tile_area failOps osrOneLevel wb 1 0 0 0 1 1 ds 0 0
      = (osrOneLevel, wb, false, true) := by
  unfold gray_tile_area read_region_area_gray
  norm_num [cTrunc, failOps, osrOneLevel, Int.floor_zero, min_def]

theorem tileList_mem (R C : Nat) (hR : 0 < R) (hC : 0 < C) :
    ((0, 0) : Nat × Nat) ∈ tileList R C := by
  unfold tileList
  exact List.mem_flatMap.mpr ⟨0, List.mem_range.mpr hR,
    List.mem_map.mpr ⟨0, List.mem_range.mpr hC, rfl⟩⟩

theorem color_tile_area_out_of_range (ops : PaintOps) (osr : OSR)
    (dest : Option (List Nat)) (x y : Int) (level : Int) (w h : Int)
    (ds : ℚ) (row col : Nat) (hl : level_in_range osr level = false) :
    color_tile_area ops osr dest x y level w h ds row col
      = (dest, true, false) := by
  unfold color_tile_area read_region_area
  simp [hl]

theorem gray_tile_area_invalid_level (ops : PaintOps) (osr : OSR)
    (wb : Option (List Nat)) (pb : Int) (x y : Int) (level : Int)
    (w h : Int) (ds : ℚ) (row col : Nat) (hpb : pb = 1 ∨ pb = 2)
    (hl : osr.level_count_all - 1 < level) :
    gray_tile_area ops osr wb pb x y level w h ds row col
      = (propagate_error osr "invalid level", wb, false, false) := by
  unfold gray_tile_area read_region_area_gray
  rw [if_pos hpb, if_pos hl]

theorem gray_tile_loop_invalid_level (ops : PaintOps) (padded : Bool)
    (dest0 : Option (List Nat)) (pb : Int) (x y : Int) (level : Int)
    (w h : Int) (ds : ℚ) (stride : Int) (t : Nat × Nat)
    (ts : List (Nat × Nat)) (osr : OSR) (wb fp : Option (List Nat))
    (hpb : pb = 1 ∨ pb = 2) (hl : osr.level_count_all - 1 < level) :
    (gray_tile_loop ops padded dest0 pb x y level w h ds stride (t :: ts)
      osr wb fp).osr.error.isSome = true := by
  obtain ⟨row, col⟩ := t
  simp only [gray_tile_loop,
    gray_tile_area_invalid_level ops osr wb pb x y level w h ds row col hpb
      hl,
    Bool.false_eq_true, if_false, Bool.false_and]
  exact propagate_error_isSome _ _

/-! ### Claim theorems -/

/-- C9: confirmed.  Splitting an interleaved little-endian 16-bit stream
into its low-byte plane followed by its high-byte plane and then applying
restore_czi_zstd1_generic reproduces the original stream, for every
even-length buffer including the empty one. -/
theorem restore_czi_zstd1_inverts_split (s : List Nat)
    (he : s.length % 2 = 0) :
    restore_czi_zstd1_generic (splitPlanes s) = s := by
  unfold restore_czi_zstd1_generic
  have hlen : (splitPlanes s).length = s.length := by
    have h1 := lowBytes_length s
    have h2 := highBytes_length s
    simp only [splitPlanes, List.length_append, h1, h2]
    omega
  rw [hlen]
  simpa using restoreLoop_split s he (s.length / 2) 0 (by omega)

/-- Witness for C9 at the concrete stream [1, 2, 3, 4, 5, 6]. -/
theorem restore_czi_zstd1_inverts_split_witness :
    restore_czi_zstd1_generic (splitPlanes [1, 2, 3, 4, 5, 6]) =
      [1, 2, 3, 4, 5, 6] :=
  restore_czi_zstd1_inverts_split [1, 2, 3, 4, 5, 6] (by decide)

/-- C8: code_bug.  The claim says every negative codec status yields a
non-empty translated message, but the post-increment in print_err's table
walk means the first table entry is never compared, so the status
WMP_errFail (which the table does carry a message for, and which is
negative) produces no message at all; later entries still work. -/
theorem print_err_skips_first_table_entry :
    WMP_errFail < 0 ∧ (WMP_errFail, some "WMP_errFail") ∈ msgsTable ∧
    print_err WMP_errFail none = none ∧
    print_err WMP_errNotYetImplemented none =
      some "JXR decode error: WMP_errNotYetImplemented" :=
  ⟨by decide, by decide, by decide, by decide⟩

/-- C6: confirmed.  If the per-level downsamples obtained after filling in
the zero sentinels are not non-decreasing, the downsample phase of
openslide_open yields no handle. -/
theorem open_aborts_on_nonmonotonic_downsamples (levels : List CLevel)
    (h : ¬ List.Chain' (fun a b : ℚ => a ≤ b)
        ((fillDownsamples levels).map (fun l => l.downsample))) :
    openDownsamplePhase levels = none := by
  unfold openDownsamplePhase
  have hc : checkDownsamples
      ((fillDownsamples levels).map (fun l => l.downsample)) ≠ true :=
    fun hc => h ((checkDownsamples_iff _).mp hc)
  simp [hc]

/-- Witness for C6: downsamples 1, 4, 2 abort the open. -/
theorem open_aborts_on_nonmonotonic_downsamples_witness :
    openDownsamplePhase [⟨100, 100, 1⟩, ⟨50, 50, 4⟩, ⟨25, 25, 2⟩] = none :=
  open_aborts_on_nonmonotonic_downsamples _ (by
    intro h
    rw [show fillDownsamples [⟨100, 100, 1⟩, ⟨50, 50, 4⟩, ⟨25, 25, 2⟩] =
        [⟨100, 100, 1⟩, ⟨50, 50, 4⟩, ⟨25, 25, 2⟩] by decide] at h
    simp only [List.map, List.chain'_cons] at h
    norm_num at h)

/-- C10: confirmed.  A full-color read rejected during validation (negative
width or height, or a channel count above one) returns with the caller's
destination untouched: validation runs before the clearing memset. -/
theorem read_region_validation_leaves_dest_untouched (ops : PaintOps)
    (osr : OSR) (dest : Option (List Nat)) (x y : Int) (level : Int)
    (w h : Int) (hrej : w < 0 ∨ h < 0 ∨ osr.channel_count > 1) :
    (openslide_read_region ops osr dest x y level w h).dest = dest := by
  unfold openslide_read_region
  by_cases hwh : w < 0 ∨ h < 0
  · rw [if_pos hwh]
  · rw [if_neg hwh, if_pos (by tauto)]

/-- Witness for C10: a multi-channel handle leaves the buffer [9] alone. -/
theorem read_region_validation_leaves_dest_untouched_witness :
    (openslide_read_region trivialOps ⟨2, 1, 1, [1], none⟩ (some [9])
      0 0 0 1 1).dest = some [9] :=
  read_region_validation_leaves_dest_untouched trivialOps _ _ 0 0 0 1 1
    (by norm_num)

/-- C1: code_bug.  For the empty buffer the SSSE3 BGR24→ARGB32 kernel does
NOT write the same bytes as the scalar reference: mm_len = src_len / 12 - 1
is computed at type size_t, so for src_len = 0 it wraps to 2^64 - 1 and the
vector loop stores 16 shuffled bytes per iteration far outside the
destination; in particular destination byte 0 is overwritten with the
(shuffled) source byte 0 while the scalar kernel leaves the destination
untouched.  The same wrap occurs for every src_len below one vector step in
the AVX2 and NEON BGR24 kernels and the SSE2/AVX2 Gray16→Gray8 kernels. -/
theorem bgr24_ssse3_short_input_bug :
    size_t_sub_one (0 / 12) = 2 ^ 64 - 1 ∧
    bgr24_to_argb32_generic (fun _ => 0) 0 (fun _ => 7) 0 = 7 ∧
    bgr24_to_argb32_ssse3 (fun _ => 0) 0 (fun _ => 7) 0 = 0 := by
  have hN : size_t_sub_one (0 / 12) = 2 ^ 64 - 1 := by
    rw [size_t_sub_one, SIZE_T_MOD]
    norm_num
  refine ⟨hN, ?_, ?_⟩
  · rw [bgr24_to_argb32_generic, bgr24_generic_loop]
    simp
  · rw [bgr24_to_argb32_ssse3]
    simp only [hN]
    rw [bgr24_generic_loop]
    rw [dif_neg (Nat.not_lt_zero _)]
    rw [show (2 ^ 64 - 1 : Nat) = (2 ^ 64 - 2) + 1 by norm_num,
      List.range_succ_eq_map, List.foldl_cons]
    rw [foldl_store_zero (fun n => bgr24_ssse3_body (fun _ => 0) (12 * n)) _ _
      (by
        intro n hn
        rcases List.mem_map.mp hn with ⟨b, -, rfl⟩
        omega)]
    decide

/-- C5 counterexample: with level 0 sized 100×100 and level 1 sized 100×25
carrying the zero sentinel, openslide_open fills in
(100/25 + 100/100)/2 = 5/2 — not the geometric mean of the width ratio
(100/100) and the height ratio (100/25), which would be 2. -/
theorem fillDownsamples_not_geometric_mean :
    ((fillDownsamples [⟨100, 100, 1⟩, ⟨100, 25, 0⟩]).getD 1
        ⟨0, 0, 0⟩).downsample = 5 / 2 ∧
    ¬ IsGeometricMean
        (((fillDownsamples [⟨100, 100, 1⟩, ⟨100, 25, 0⟩]).getD 1
            ⟨0, 0, 0⟩).downsample)
        ((100 : ℚ) / 100) ((100 : ℚ) / 25) := by
  have hv : ((fillDownsamples [⟨100, 100, 1⟩, ⟨100, 25, 0⟩]).getD 1
      ⟨0, 0, 0⟩).downsample = 5 / 2 := by
    norm_num [fillDownsamples, List.getD_cons_succ, List.getD_cons_zero]
  refine ⟨hv, ?_⟩
  rw [IsGeometricMean, hv]
  rintro ⟨-, h⟩
  norm_num at h

/-- C5 amended: for every level after level 0 whose backend-supplied
downsample is the zero sentinel, the open path computes its downsample as
the ARITHMETIC mean of the height ratio and the width ratio of level 0's
dimensions to that level's dimensions. -/
theorem fillDownsamples_arithmetic_mean (l0 : CLevel) (rest : List CLevel)
    (i : Nat) (hi : i < rest.length)
    (hz : (rest.getD i ⟨0, 0, 0⟩).downsample = 0) :
    ((fillDownsamples (l0 :: rest)).getD (i + 1) ⟨0, 0, 0⟩).downsample =
      (((l0.h : ℚ) / ((rest.getD i ⟨0, 0, 0⟩).h : ℚ)) +
        ((l0.w : ℚ) / ((rest.getD i ⟨0, 0, 0⟩).w : ℚ))) / 2 := by
  simp only [fillDownsamples, List.getD_cons_succ]
  rw [List.getD_eq_getElem _ _ (by simpa using hi), List.getElem_map]
  rw [List.getD_eq_getElem _ _ hi] at hz ⊢
  rw [if_pos hz]

/-- Witness for the amended C5 at level-0 100×100, level-1 100×25. -/
theorem fillDownsamples_arithmetic_mean_witness :
    ((fillDownsamples [⟨100, 100, 1⟩, ⟨100, 25, 0⟩]).getD 1
        ⟨0, 0, 0⟩).downsample =
      (((100 : ℚ) / 25) + ((100 : ℚ) / 100)) / 2 :=
  fillDownsamples_arithmetic_mean ⟨100, 100, 1⟩ [⟨100, 25, 0⟩] 0
    (by norm_num) (by norm_num [List.getD_cons_zero])

theorem chain'_getD_mono {l : List ℚ}
    (h : List.Chain' (fun a b : ℚ => a ≤ b) l) {i j : Nat} (hij : i ≤ j)
    (hj : j < l.length) : l.getD i 0 ≤ l.getD j 0 := by
  rcases eq_or_lt_of_le hij with rfl | hlt
  · exact le_refl _
  · have hi : i < l.length := lt_trans hlt hj
    rw [List.getD_eq_getElem l 0 hi, List.getD_eq_getElem l 0 hj]
    exact List.pairwise_iff_getElem.mp (List.chain'_iff_pairwise.mp h)
      i j hi hj hlt

theorem bestLevelLoop_found (dss : List ℚ) (target : ℚ)
    (hmono : List.Chain' (fun a b : ℚ => a ≤ b) dss) :
    ∀ n i, dss.length - i = n → 1 ≤ i → i ≤ dss.length →
      (∀ j, j < i → dss.getD j 0 ≤ target) →
      ∃ k : Nat, bestLevelLoop dss target i = (k : Int) ∧
        k < dss.length ∧ dss.getD k 0 ≤ target ∧
        ∀ j, j < dss.length → dss.getD j 0 ≤ target → j ≤ k := by
  intro n
  induction n with
  | zero =>
    intro i h0 h1 h2 hinv
    rw [bestLevelLoop, dif_neg (by omega)]
    refine ⟨dss.length - 1, by omega, by omega, hinv _ (by omega), ?_⟩
    intro j hj _
    omega
  | succ n ih =>
    intro i h0 h1 h2 hinv
    have hlt : i < dss.length := by omega
    rw [bestLevelLoop, dif_pos hlt]
    by_cases hc : target < dss.getD i 0
    · rw [if_pos hc]
      refine ⟨i - 1, by omega, by omega, hinv _ (by omega), ?_⟩
      intro j hj hle
      by_contra hji
      have hmle : dss.getD i 0 ≤ dss.getD j 0 :=
        chain'_getD_mono hmono (by omega) hj
      have : target < dss.getD j 0 := lt_of_lt_of_le hc hmle
      exact absurd hle (not_le.mpr this)
    · rw [if_neg hc]
      refine ih (i + 1) (by omega) (by omega) (by omega) ?_
      intro j hj
      rcases Nat.lt_succ_iff_lt_or_eq.mp hj with hj' | rfl
      · exact hinv j hj'
      · exact not_lt.mp hc

/-- C4: confirmed.  On a non-errored handle with a non-empty, non-decreasing
downsample list, openslide_get_best_level_for_downsample returns 0 when the
target is below level 0's downsample and otherwise the last level whose
downsample is at most the target; on downsamples [1, 4, 16] it returns 0,
1, 1, 2 for targets 1/2, 4, 10, 100. -/
theorem best_level_for_downsample_spec (dss : List ℚ) (target : ℚ)
    (hne : dss ≠ []) (hmono : List.Chain' (fun a b : ℚ => a ≤ b) dss) :
    (target < dss.getD 0 0 →
      openslide_get_best_level_for_downsample none dss target = 0) ∧
    (dss.getD 0 0 ≤ target →
      ∃ k : Nat, openslide_get_best_level_for_downsample none dss target
          = (k : Int) ∧
        k < dss.length ∧ dss.getD k 0 ≤ target ∧
        ∀ j, j < dss.length → dss.getD j 0 ≤ target → j ≤ k) ∧
    openslide_get_best_level_for_downsample none [1, 4, 16] (1 / 2) = 0 ∧
    openslide_get_best_level_for_downsample none [1, 4, 16] 4 = 1 ∧
    openslide_get_best_level_for_downsample none [1, 4, 16] 10 = 1 ∧
    openslide_get_best_level_for_downsample none [1, 4, 16] 100 = 2 := by
  have hlen : 1 ≤ dss.length := by
    cases dss with
    | nil => exact absurd rfl hne
    | cons a t => simp
  refine ⟨?_, ?_, ?_, ?_, ?_, ?_⟩
  · intro hlt
    unfold openslide_get_best_level_for_downsample
    rw [if_neg (by simp), if_pos hlt]
  · intro hge
    unfold openslide_get_best_level_for_downsample
    rw [if_neg (by simp), if_neg (not_lt.mpr hge)]
    refine bestLevelLoop_found dss target hmono (dss.length - 1) 1
      (by omega) (by omega) (by omega) ?_
    intro j hj
    have hj0 : j = 0 := by omega
    subst hj0
    exact hge
  · unfold openslide_get_best_level_for_downsample
    rw [if_neg (by simp),
      if_pos (by norm_num [List.getD_cons_zero])]
  · unfold openslide_get_best_level_for_downsample
    rw [if_neg (by simp), if_neg (by norm_num [List.getD_cons_zero])]
    rw [bestLevelLoop, dif_pos (by norm_num)]
    rw [if_neg (by norm_num [List.getD_cons_succ, List.getD_cons_zero])]
    rw [bestLevelLoop, dif_pos (by norm_num)]
    rw [if_pos (by norm_num [List.getD_cons_succ, List.getD_cons_zero])]
    norm_num
  · unfold openslide_get_best_level_for_downsample
    rw [if_neg (by simp), if_neg (by norm_num [List.getD_cons_zero])]
    rw [bestLevelLoop, dif_pos (by norm_num)]
    rw [if_neg (by norm_num [List.getD_cons_succ, List.getD_cons_zero])]
    rw [bestLevelLoop, dif_pos (by norm_num)]
    rw [if_pos (by norm_num [List.getD_cons_succ, List.getD_cons_zero])]
    norm_num
  · unfold openslide_get_best_level_for_downsample
    rw [if_neg (by simp), if_neg (by norm_num [List.getD_cons_zero])]
    rw [bestLevelLoop, dif_pos (by norm_num)]
    rw [if_neg (by norm_num [List.getD_cons_succ, List.getD_cons_zero])]
    rw [bestLevelLoop, dif_pos (by norm_num)]
    rw [if_neg (by norm_num [List.getD_cons_succ, List.getD_cons_zero])]
    rw [bestLevelLoop, dif_neg (by norm_num)]
    norm_num

set_option maxHeartbeats 1600000 in
/-- C7: confirmed for the bit depths the Gray16→Gray8 kernels serve
(9 ≤ real_bit_depth ≤ 16, i.e. a positive shift — the code's own comment
relies on the shift to keep the sign bit of the high byte clear).  Every
16-bit sample whose value shifted right by (real_bit_depth - 8) still has a
non-zero high byte produces output byte exactly 255, identically in the
scalar kernel and in every lane of the SSE2 and AVX2 vector bodies. -/
theorem gray16_to_gray8_saturation (src : Nat → Nat) (a : Nat) (bits : Nat)
    (h9 : 9 ≤ bits) (h16 : bits ≤ 16) :
    (∀ p, 256 ≤ sample16 src p >>> (bits - 8) →
      gray16togray8 src p (bits - 8) = 255) ∧
    (∀ j, j < 8 → 256 ≤ sample16 src (a + 2 * j) >>> (bits - 8) →
      (gray16_to_gray8_sse2_block src a (bits - 8)).getD j 0 = 255) ∧
    (∀ j, j < 16 → 256 ≤ sample16 src (a + 2 * j) >>> (bits - 8) →
      (gray16_to_gray8_avx2_block src a (bits - 8)).getD j 0 = 255) := by
  have hns : 1 ≤ bits - 8 := by omega
  refine ⟨?_, ?_, ?_⟩
  · intro p hp
    simp only [gray16togray8]
    rw [if_pos (by omega)]
  · intro j hj hs
    interval_cases j
    · simpa [gray16_to_gray8_sse2_block, load16, srli_epi16, pshufb,
        mask_lo8, mask_hi8, pcmpgtb_zero, orBytes, List.getD, sample16]
        using sat_lane_255 (src a) (src (a + 1)) (bits - 8) hns
          (by simpa [sample16, Nat.add_assoc] using hs)
    · simpa [gray16_to_gray8_sse2_block, load16, srli_epi16, pshufb,
        mask_lo8, mask_hi8, pcmpgtb_zero, orBytes, List.getD, sample16]
        using sat_lane_255 (src (a + 2)) (src (a + 3)) (bits - 8) hns
          (by simpa [sample16, Nat.add_assoc] using hs)
    · simpa [gray16_to_gray8_sse2_block, load16, srli_epi16, pshufb,
        mask_lo8, mask_hi8, pcmpgtb_zero, orBytes, List.getD, sample16]
        using sat_lane_255 (src (a + 4)) (src (a + 5)) (bits - 8) hns
          (by simpa [sample16, Nat.add_assoc] using hs)
    · simpa [gray16_to_gray8_sse2_block, load16, srli_epi16, pshufb,
        mask_lo8, mask_hi8, pcmpgtb_zero, orBytes, List.getD, sample16]
        using sat_lane_255 (src (a + 6)) (src (a + 7)) (bits - 8) hns
          (by simpa [sample16, Nat.add_assoc] using hs)
    · simpa [gray16_to_gray8_sse2_block, load16, srli_epi16, pshufb,
        mask_lo8, mask_hi8, pcmpgtb_zero, orBytes, List.getD, sample16]
        using sat_lane_255 (src (a + 8)) (src (a + 9)) (bits - 8) hns
          (by simpa [sample16, Nat.add_assoc] using hs)
    · simpa [gray16_to_gray8_sse2_block, load16, srli_epi16, pshufb,
        mask_lo8, mask_hi8, pcmpgtb_zero, orBytes, List.getD, sample16]
        using sat_lane_255 (src (a + 10)) (src (a + 11)) (bits - 8) hns
          (by simpa [sample16, Nat.add_assoc] using hs)
    · simpa [gray16_to_gray8_sse2_block, load16, srli_epi16, pshufb,
        mask_lo8, mask_hi8, pcmpgtb_zero, orBytes, List.getD, sample16]
        using sat_lane_255 (src (a + 12)) (src (a + 13)) (bits - 8) hns
          (by simpa [sample16, Nat.add_assoc] using hs)
    · simpa [gray16_to_gray8_sse2_block, load16, srli_epi16, pshufb,
        mask_lo8, mask_hi8, pcmpgtb_zero, orBytes, List.getD, sample16]
        using sat_lane_255 (src (a + 14)) (src (a + 15)) (bits - 8) hns
          (by simpa [sample16, Nat.add_assoc] using hs)
  · intro j hj hs
    interval_cases j
    · simpa [gray16_to_gray8_avx2_block, load32, load16, srli_epi16,
        pshufb256, pshufb, mask_lo8, mask_hi8, pcmpgtb_zero, orBytes,
        permute4x64_08, List.getD, sample16]
        using sat_lane_255 (src a) (src (a + 1)) (bits - 8) hns
          (by simpa [sample16, Nat.add_assoc] using hs)
    · simpa [gray16_to_gray8_avx2_block, load32, load16, srli_epi16,
        pshufb256, pshufb, mask_lo8, mask_hi8, pcmpgtb_zero, orBytes,
        permute4x64_08, List.getD, sample16]
        using sat_lane_255 (src (a + 2)) (src (a + 3)) (bits - 8) hns
          (by simpa [sample16, Nat.add_assoc] using hs)
    · simpa [gray16_to_gray8_avx2_block, load32, load16, srli_epi16,
        pshufb256, pshufb, mask_lo8, mask_hi8, pcmpgtb_zero, orBytes,
        permute4x64_08, List.getD, sample16]
        using sat_lane_255 (src (a + 4)) (src (a + 5)) (bits - 8) hns
          (by simpa [sample16, Nat.add_assoc] using hs)
    · simpa [gray16_to_gray8_avx2_block, load32, load16, srli_epi16,
        pshufb256, pshufb, mask_lo8, mask_hi8, pcmpgtb_zero, orBytes,
        permute4x64_08, List.getD, sample16]
        using sat_lane_255 (src (a + 6)) (src (a + 7)) (bits - 8) hns
          (by simpa [sample16, Nat.add_assoc] using hs)
    · simpa [gray16_to_gray8_avx2_block, load32, load16, srli_epi16,
        pshufb256, pshufb, mask_lo8, mask_hi8, pcmpgtb_zero, orBytes,
        permute4x64_08, List.getD, sample16]
        using sat_lane_255 (src (a + 8)) (src (a + 9)) (bits - 8) hns
          (by simpa [sample16, Nat.add_assoc] using hs)
    · simpa [gray16_to_gray8_avx2_block, load32, load16, srli_epi16,
        pshufb256, pshufb, mask_lo8, mask_hi8, pcmpgtb_zero, orBytes,
        permute4x64_08, List.getD, sample16]
        using sat_lane_255 (src (a + 10)) (src (a + 11)) (bits - 8) hns
          (by simpa [sample16, Nat.add_assoc] using hs)
    · simpa [gray16_to_gray8_avx2_block, load32, load16, srli_epi16,
        pshufb256, pshufb, mask_lo8, mask_hi8, pcmpgtb_zero, orBytes,
        permute4x64_08, List.getD, sample16]
        using sat_lane_255 (src (a + 12)) (src (a + 13)) (bits - 8) hns
          (by simpa [sample16, Nat.add_assoc] using hs)
    · simpa [gray16_to_gray8_avx2_block, load32, load16, srli_epi16,
        pshufb256, pshufb, mask_lo8, mask_hi8, pcmpgtb_zero, orBytes,
        permute4x64_08, List.getD, sample16]
        using sat_lane_255 (src (a + 14)) (src (a + 15)) (bits - 8) hns
          (by simpa [sample16, Nat.add_assoc] using hs)
    · simpa [gray16_to_gray8_avx2_block, load32, load16, srli_epi16,
        pshufb256, pshufb, mask_lo8, mask_hi8, pcmpgtb_zero, orBytes,
        permute4x64_08, List.getD, sample16]
        using sat_lane_255 (src (a + 16)) (src (a + 17)) (bits - 8) hns
          (by simpa [sample16, Nat.add_assoc] using hs)
    · simpa [gray16_to_gray8_avx2_block, load32, load16, srli_epi16,
        pshufb256, pshufb, mask_lo8, mask_hi8, pcmpgtb_zero, orBytes,
        permute4x64_08, List.getD, sample16]
        using sat_lane_255 (src (a + 18)) (src (a + 19)) (bits - 8) hns
          (by simpa [sample16, Nat.add_assoc] using hs)
    · simpa [gray16_to_gray8_avx2_block, load32, load16, srli_epi16,
        pshufb256, pshufb, mask_lo8, mask_hi8, pcmpgtb_zero, orBytes,
        permute4x64_08, List.getD, sample16]
        using sat_lane_255 (src (a + 20)) (src (a + 21)) (bits - 8) hns
          (by simpa [sample16, Nat.add_assoc] using hs)
    · simpa [gray16_to_gray8_avx2_block, load32, load16, srli_epi16,
        pshufb256, pshufb, mask_lo8, mask_hi8, pcmpgtb_zero, orBytes,
        permute4x64_08, List.getD, sample16]
        using sat_lane_255 (src (a + 22)) (src (a + 23)) (bits - 8) hns
          (by simpa [sample16, Nat.add_assoc] using hs)
    · simpa [gray16_to_gray8_avx2_block, load32, load16, srli_epi16,
        pshufb256, pshufb, mask_lo8, mask_hi8, pcmpgtb_zero, orBytes,
        permute4x64_08, List.getD, sample16]
        using sat_lane_255 (src (a + 24)) (src (a + 25)) (bits - 8) hns
          (by simpa [sample16, Nat.add_assoc] using hs)
    · simpa [gray16_to_gray8_avx2_block, load32, load16, srli_epi16,
        pshufb256, pshufb, mask_lo8, mask_hi8, pcmpgtb_zero, orBytes,
        permute4x64_08, List.getD, sample16]
        using sat_lane_255 (src (a + 26)) (src (a + 27)) (bits - 8) hns
          (by simpa [sample16, Nat.add_assoc] using hs)
    · simpa [gray16_to_gray8_avx2_block, load32, load16, srli_epi16,
        pshufb256, pshufb, mask_lo8, mask_hi8, pcmpgtb_zero, orBytes,
        permute4x64_08, List.getD, sample16]
        using sat_lane_255 (src (a + 28)) (src (a + 29)) (bits - 8) hns
          (by simpa [sample16, Nat.add_assoc] using hs)
    · simpa [gray16_to_gray8_avx2_block, load32, load16, srli_epi16,
        pshufb256, pshufb, mask_lo8, mask_hi8, pcmpgtb_zero, orBytes,
        permute4x64_08, List.getD, sample16]
        using sat_lane_255 (src (a + 30)) (src (a + 31)) (bits - 8) hns
          (by simpa [sample16, Nat.add_assoc] using hs)

/-- Witness for C7: bit depth 14, over-range sample 0xFFFF at lane 3. -/
theorem gray16_to_gray8_saturation_witness :
    gray16togray8 (fun _ => 255) 6 (14 - 8) = 255 :=
  (gray16_to_gray8_saturation (fun _ => 255) 0 14 (by norm_num)
    (by norm_num)).1 6 (by decide)

/-- Witness for C4 on downsamples [1, 4, 16] and target 4. -/
theorem best_level_for_downsample_spec_witness :
    openslide_get_best_level_for_downsample none [1, 4, 16] (1 / 2) = 0 :=
  (best_level_for_downsample_spec [1, 4, 16] (1 / 2) (by simp)
    (by norm_num [List.chain'_cons])).2.2.1

/-- C3 counterexample: a full-color read with the out-of-range level 1 on a
healthy one-level handle completes without setting any sticky error — the
color path just paints nothing for an out-of-range level — contradicting
the claim that an out-of-range level sets the sticky error at call time. -/
theorem color_read_out_of_range_level_sets_no_error :
    level_in_range osrOneLevel 1 = false ∧
    (openslide_read_region failOps osrOneLevel (some [0, 0, 0, 0]) 0 0 1 1
      1).osr.error = none := by
  have hlr : level_in_range osrOneLevel 1 = false := by decide
  refine ⟨hlr, ?_⟩
  simp only [openslide_read_region]
  rw [if_neg (by norm_num), if_neg (by decide), if_neg (by decide)]
  rw [show (((1 : Int) + 4096 - 1) / 4096).toNat = 1 by decide]
  rw [show tileList 1 1 = [(0, 0)] from rfl]
  simp only [color_tile_loop, color_tile_area_out_of_range, hlr, if_true]
  rfl

/-- C3 amended: negative width/height sets the sticky error in both the
full-color and gray paths, a channel count above 1 sets it in the
full-color path, an invalid pixel size or (for a non-empty region) a level
beyond level_count_all sets it in the gray path — but the full-color path
does NOT error on an out-of-range level (see the counterexample): it paints
nothing and returns success. -/
theorem request_validation_error_behavior (ops : PaintOps) (osr : OSR)
    (dest : Option (List Nat)) (x y : Int) (level : Int) (w h : Int) :
    ((w < 0 ∨ h < 0) →
      (openslide_read_region ops osr dest x y level w h).osr.error.isSome
        = true) ∧
    ((w < 0 ∨ h < 0) → ∀ pb,
      (openslide_read_region_gray ops osr dest pb x y level w
        h).osr.error.isSome = true) ∧
    (0 ≤ w → 0 ≤ h → 1 < osr.channel_count →
      (openslide_read_region ops osr dest x y level w h).osr.error.isSome
        = true) ∧
    (∀ pb, ¬(pb = 1 ∨ pb = 2) → 0 ≤ w → 0 ≤ h →
      (openslide_read_region_gray ops osr dest pb x y level w
        h).osr.error.isSome = true) ∧
    (∀ pb, (pb = 1 ∨ pb = 2) → 0 < w → 0 < h →
      osr.level_count_all - 1 < level →
      (openslide_read_region_gray ops osr dest pb x y level w
        h).osr.error.isSome = true) := by
  refine ⟨?_, ?_, ?_, ?_, ?_⟩
  · intro hwh
    unfold openslide_read_region
    rw [if_pos hwh]
    exact propagate_error_isSome _ _
  · intro hwh pb
    unfold openslide_read_region_gray
    rw [if_pos hwh]
    exact propagate_error_isSome _ _
  · intro hw hh hch
    unfold openslide_read_region
    rw [if_neg (by omega), if_pos (by omega)]
    exact propagate_error_isSome _ _
  · intro pb hpb hw hh
    unfold openslide_read_region_gray
    rw [if_neg (by omega), if_pos hpb]
    exact propagate_error_isSome _ _
  · intro pb hpb hw hh hl
    simp only [openslide_read_region_gray]
    rw [if_neg (by omega), if_neg (not_not_intro hpb)]
    by_cases herr : osr.error.isSome
    · rw [if_pos herr]
      exact herr
    · rw [if_neg herr]
      have hR : 0 < ((h + 4096 - 1) / 4096).toNat := by omega
      have hC : 0 < ((w + 4096 - 1) / 4096).toNat := by omega
      cases htl : tileList (((h + 4096 - 1) / 4096).toNat)
          (((w + 4096 - 1) / 4096).toNat) with
      | nil =>
        exact absurd (tileList_mem _ _ hR hC) (by rw [htl]; simp)
      | cons t ts =>
        exact gray_tile_loop_invalid_level ops _ _ pb x y level w h _ _ t ts
          osr _ none hpb hl

/-- Witness for the amended C3: a negative width sets the sticky error. -/
theorem request_validation_error_behavior_witness :
    (openslide_read_region failOps osrOneLevel (some [1, 2, 3, 4]) 0 0 0
      (-1) 1).osr.error.isSome = true :=
  (request_validation_error_behavior failOps osrOneLevel (some [1, 2, 3, 4])
    0 0 0 (-1) 1).1 (Or.inl (by norm_num))

/-- C2 counterexample: a gray8 read of a 1×1 region (non-negative size,
healthy handle) uses a stride-padded intermediate buffer (cairo stride 4 ≠
tight row size 1).  When the sub-tile paint fails, the caller's destination
still holds its original contents [5]: it was never zeroed before the
decode attempt (destAtFirstPaint = [5]) and is not re-zeroed in full before
the call returns (dest = [5], not the zero buffer). -/
theorem gray_read_failure_leaves_dest_unzeroed :
    openslide_read_region_gray failOps osrOneLevel (some [5]) 1 0 0 0 1 1
      = ⟨propagate_error osrOneLevel "error painting gray region",
          some [5], some [5], true⟩ ∧
    ([5] : List Nat) ≠ List.replicate 1 0 := by
  refine ⟨?_, by decide⟩
  simp only [openslide_read_region_gray]
  rw [if_neg (by norm_num), if_neg (by norm_num)]
  norm_num [stride_for]
  rw [show tileList 1 1 = [(0, 0)] from rfl]
  simp only [gray_tile_loop, gray_tile_area_1x1_fail, Option.isNone_none,
    Bool.and_true, Bool.true_and, Bool.false_eq_true, if_false, if_true]
  norm_num [osrOneLevel]

/-- C2 amended: the buffer that is zeroed before any decode attempt and
re-zeroed in full on a sub-tile failure is the WORKING buffer of the read:
the destination itself for full-color reads and for gray reads whose cairo
stride equals the tight row size, but the internal stride-padded
intermediate for the other gray reads — in that case the destination is
written only after every sub-tile succeeds, so on failure it keeps its
original contents (never a partial paint) instead of being re-zeroed. -/
theorem read_region_failure_no_partial_paint (ops : PaintOps)
    (heff : ∀ a b c d e (buf : List Nat),
      (ops.eff a b c d e buf).length = buf.length) :
    (∀ (osr : OSR) (b0 : List Nat) (x y level w h : Int),
      0 ≤ w → 0 ≤ h → osr.channel_count ≤ 1 → osr.error = none →
      b0.length = (w * h * 4).toNat →
      ((openslide_read_region ops osr (some b0) x y level w
          h).destAtFirstPaint = none ∨
       (openslide_read_region ops osr (some b0) x y level w
          h).destAtFirstPaint
         = some (List.replicate (w * h * 4).toNat 0)) ∧
      ((openslide_read_region ops osr (some b0) x y level w h).failed
          = true →
       (openslide_read_region ops osr (some b0) x y level w h).dest
         = some (List.replicate (w * h * 4).toNat 0))) ∧
    (∀ (osr : OSR) (b0 : List Nat) (pb x y level w h : Int),
      0 ≤ w → 0 ≤ h → (pb = 1 ∨ pb = 2) → osr.error = none →
      stride_for (if pb = 1 then 8 else 16) w = w * pb →
      b0.length = (h * stride_for (if pb = 1 then 8 else 16) w).toNat →
      ((openslide_read_region_gray ops osr (some b0) pb x y level w
          h).destAtFirstPaint = none ∨
       (openslide_read_region_gray ops osr (some b0) pb x y level w
          h).destAtFirstPaint
         = some (List.replicate
             (h * stride_for (if pb = 1 then 8 else 16) w).toNat 0)) ∧
      ((openslide_read_region_gray ops osr (some b0) pb x y level w
          h).failed = true →
       (openslide_read_region_gray ops osr (some b0) pb x y level w h).dest
         = some (List.replicate
             (h * stride_for (if pb = 1 then 8 else 16) w).toNat 0))) ∧
    (∀ (osr : OSR) (b0 : List Nat) (pb x y level w h : Int),
      0 ≤ w → 0 ≤ h → (pb = 1 ∨ pb = 2) → osr.error = none →
      ¬ stride_for (if pb = 1 then 8 else 16) w = w * pb →
      ((openslide_read_region_gray ops osr (some b0) pb x y level w
          h).destAtFirstPaint = none ∨
       (openslide_read_region_gray ops osr (some b0) pb x y level w
          h).destAtFirstPaint = some b0) ∧
      ((openslide_read_region_gray ops osr (some b0) pb x y level w
          h).failed = true →
       (openslide_read_region_gray ops osr (some b0) pb x y level w h).dest
         = some b0)) := by
  refine ⟨?_, ?_, ?_⟩
  · intro osr b0 x y level w h hw hh hch herr hlen
    have heq : openslide_read_region ops osr (some b0) x y level w h
        = color_tile_loop ops x y level w h
            (openslide_get_level_downsample osr level) ((w * h * 4).toNat)
            (tileList (((h + 4096 - 1) / 4096).toNat)
              (((w + 4096 - 1) / 4096).toNat)) osr
            (some (List.replicate (w * h * 4).toNat 0)) none := by
      simp only [openslide_read_region, Option.map_some']
      rw [if_neg (by omega), if_neg (by omega), if_neg (by simp [herr]),
        memsetZero_full b0 _ hlen]
    rw [heq]
    constructor
    · exact color_tile_loop_fp_none ops x y level w h _ _ _ _ osr
    · intro hf
      exact color_tile_loop_failed_dest ops x y level w h _ _ heff _ osr _
        none (by simp) hf
  · intro osr b0 pb x y level w h hw hh hpb herr hstride hlen
    rw [hstride] at hlen ⊢
    have heq : openslide_read_region_gray ops osr (some b0) pb x y level w h
        = gray_tile_loop ops false (some b0) pb x y level w h
            (openslide_get_level_downsample_gray osr level) (w * pb)
            (tileList (((h + 4096 - 1) / 4096).toNat)
              (((w + 4096 - 1) / 4096).toNat)) osr
            (some (List.replicate (h * (w * pb)).toNat 0)) none := by
      simp only [openslide_read_region_gray]
      rw [if_neg (by omega), if_neg (not_not_intro hpb), hstride]
      rw [if_neg (by simp [herr]), if_pos rfl, bne_self_eq_false]
      simp only [Option.map_some']
      rw [memsetZero_full b0 _ hlen]
    rw [heq]
    constructor
    · exact gray_tile_loop_unpadded_fp_none ops _ pb x y level w h _ _ _ _
        osr
    · intro hf
      exact gray_tile_loop_unpadded_failed ops _ pb x y level w h _ _ heff
        _ osr _ none (by simp) hf
  · intro osr b0 pb x y level w h hw hh hpb herr hstride
    have heq : openslide_read_region_gray ops osr (some b0) pb x y level w h
        = gray_tile_loop ops true (some b0) pb x y level w h
            (openslide_get_level_downsample_gray osr level)
            (stride_for (if pb = 1 then 8 else 16) w)
            (tileList (((h + 4096 - 1) / 4096).toNat)
              (((w + 4096 - 1) / 4096).toNat)) osr
            (some (List.replicate
              (h * stride_for (if pb = 1 then 8 else 16) w).toNat 0))
            none := by
      simp only [openslide_read_region_gray]
      rw [if_neg (by omega), if_neg (not_not_intro hpb),
        if_neg (by simp [herr]), if_neg hstride,
        show (stride_for (if pb = 1 then 8 else 16) w != w * pb) = true
          from bne_iff_ne.mpr hstride]
      simp only [Option.map_some']
      rw [memsetZero_full _ _ (List.length_replicate _ _)]
    rw [heq]
    constructor
    · exact gray_tile_loop_padded_fp ops _ pb x y level w h _ _ _ osr _ none
    · intro hf
      exact gray_tile_loop_padded_failed ops _ pb x y level w h _ _ _ osr _
        none hf

/-- Witness for the amended C2 at the 1×1 gray8 read with a failing paint:
the destination keeps its original contents on failure. -/
theorem read_region_failure_no_partial_paint_witness :
    ((openslide_read_region_gray failOps osrOneLevel (some [5]) 1 0 0 0 1
        1).destAtFirstPaint = none ∨
     (openslide_read_region_gray failOps osrOneLevel (some [5]) 1 0 0 0 1
        1).destAtFirstPaint = some [5]) ∧
    ((openslide_read_region_gray failOps osrOneLevel (some [5]) 1 0 0 0 1
        1).failed = true →
     (openslide_read_region_gray failOps osrOneLevel (some [5]) 1 0 0 0 1
        1).dest = some [5]) :=
  (read_region_failure_no_partial_paint failOps
    (fun _ _ _ _ _ _ => rfl)).2.2 osrOneLevel [5] 1 0 0 0 1 1 (by norm_num)
    (by norm_num) (by norm_num) rfl (by decide)

end OpenSlide
